import Mathlib

/-!
Verification development for the movie_bot payment-callback reconciliation
pipeline (movie_bot.py).  Python dictionaries delivered as webhook payloads
are embedded as a `Json` inductive; the SQLite tables are embedded as
association lists inside a `Store` record; side effects (chat messages,
content delivery, warning-level log writes) are recorded as an event list.
Monetary values (SQL `REAL`) are modelled as rationals; wall-clock
timestamps and autoincrement row ids are abstracted away.  A Python
function that raises an uncaught exception (which Flask turns into an
HTTP 500) is modelled as `Except.error ()`.
-/

set_option maxHeartbeats 1000000

/-- JSON documents as delivered to the webhook handlers.  Numbers are
modelled as integers (the payload fields the program inspects are integral
result codes); objects keep field order, matching Python dict iteration
order. -/
inductive Json where
  | null : Json
  | bool : Bool → Json
  | num : Int → Json
  | str : String → Json
  | arr : List Json → Json
  | obj : List (String × Json) → Json

/-- Python `k in dct` followed by `dct[k]`: the first field with the given
key (Python dict keys are unique; on a duplicated key our model keeps the
first binding, as a dict literal would keep exactly one). -/
def lookupField : List (String × Json) → String → Option Json
  | [], _ => none
  | (k, v) :: rest, key => if k = key then some v else lookupField rest key

/-- The alias loop at the top of `deep_find`:
`for k in keys: if k in dct: return dct[k]`.  The first alias present in
the dict wins, regardless of its value. -/
def keyHit (keys : List String) (fields : List (String × Json)) : Option Json :=
  match keys with
  | [] => none
  | k :: ks =>
    match lookupField fields k with
    | some v => some v
    | none => keyHit ks fields

mutual

/-- Function `deep_find(dct, keys)` from `process_callback_payload` (movie_bot.py
lines 885-902).  Non-dict arguments yield `None`; otherwise the alias loop
runs first, then the values of the dict are searched recursively
(dict values directly, list values through their dict items).  A key hit
whose value is JSON `null` makes the call return Python `None` — i.e. our
`none` — immediately (the `return dct[k]` line returns `None`), which a
recursive caller cannot distinguish from "not found". -/
def deep_find (keys : List String) : Json → Option Json
  | Json.obj fields =>
    match keyHit keys fields with
    | some Json.null => none
    | some v => some v
    | none => deepFindFields keys fields
  | _ => none

/-- The `for v in dct.values()` loop of `deep_find`: dict values are
searched by a recursive call, list values have their dict items searched;
all other values are skipped.  The first non-`None` result is returned. -/
def deepFindFields (keys : List String) : List (String × Json) → Option Json
  | [] => none
  | (_, Json.obj f2) :: rest =>
    match deep_find keys (Json.obj f2) with
    | some r => some r
    | none => deepFindFields keys rest
  | (_, Json.arr items) :: rest =>
    match deepFindItems keys items with
    | some r => some r
    | none => deepFindFields keys rest
  | _ :: rest => deepFindFields keys rest

/-- The `for item in v` loop of `deep_find` for a list value: only dict
items are searched (`if isinstance(item, dict)`), first hit wins. -/
def deepFindItems (keys : List String) : List Json → Option Json
  | [] => none
  | Json.obj f2 :: rest =>
    match deep_find keys (Json.obj f2) with
    | some r => some r
    | none => deepFindItems keys rest
  | _ :: rest => deepFindItems keys rest

end

mutual

/-- Semantic presence of a reference-bearing field: does any object
anywhere in the document (at any nesting level, including inside nested
arrays) have a field whose key is one of `keys`?  This is the predicate
quantified over by the spec sentence "the reference-bearing field is
absent at every nesting level". -/
def hasAnyKey (keys : List String) : Json → Bool
  | Json.obj fields => hasAnyKeyFields keys fields
  | Json.arr items => hasAnyKeyItems keys items
  | _ => false

/-- Field-list part of `hasAnyKey`. -/
def hasAnyKeyFields (keys : List String) : List (String × Json) → Bool
  | [] => false
  | (k, v) :: rest => keys.contains k || hasAnyKey keys v || hasAnyKeyFields keys rest

/-- Item-list part of `hasAnyKey`. -/
def hasAnyKeyItems (keys : List String) : List Json → Bool
  | [] => false
  | item :: rest => hasAnyKey keys item || hasAnyKeyItems keys rest

end

/-- Python truthiness of a JSON value: `None`, `False`, `0`, `""`, `[]`
and the empty object are falsy. -/
def jsonTruthy : Json → Bool
  | Json.null => false
  | Json.bool b => b
  | Json.num n => n != 0
  | Json.str s => s != ""
  | Json.arr xs => !xs.isEmpty
  | Json.obj fs => !fs.isEmpty

/-- Truthiness of an optional JSON value (`if not external:`). -/
def optTruthy : Option Json → Bool
  | some v => jsonTruthy v
  | none => false

/-- Python `"response" in lst` for a list payload: element equality with
the string (only an equal string compares equal to a string). -/
def containsRespStr : List Json → Bool
  | [] => false
  | Json.str s :: rest => s == "response" || containsRespStr rest
  | _ :: rest => containsRespStr rest

/-- Boolean list-prefix test used below (same as `List.isPrefixOf` for
characters). -/
def charsHavePre : List Char → List Char → Bool
  | [], _ => true
  | _ :: _, [] => false
  | a :: as, b :: bs => a == b && charsHavePre as bs

/-- Boolean contiguous-sublist test. -/
def charsContain (pat : List Char) : List Char → Bool
  | [] => charsHavePre pat []
  | c :: rest => charsHavePre pat (c :: rest) || charsContain pat rest

/-- Python `"response" in s` for a string payload: substring test. -/
def strContainsResp (s : String) : Bool :=
  charsContain "response".toList s.toList

/-- Python `str.isdigit()` restricted to ASCII digits: non-empty and all
characters are digits. -/
def pyIsDigit (s : String) : Bool :=
  !s.toList.isEmpty && s.toList.all Char.isDigit

/-- The numeric value `int(s)` of an all-digit string. -/
def digitsVal (s : String) : Nat :=
  s.toList.foldl (fun n c => n * 10 + (c.toNat - '0'.toNat)) 0

/-- Python `str.lower()` (ASCII case folding, character by character). -/
def pyLower (s : String) : String :=
  String.mk (s.toList.map Char.toLower)

/-- The test `result_code is not None and str(result_code).isdigit() and
int(result_code) == 0`, per JSON constructor: for an integer, `str(n)` is
all digits exactly when `n ≥ 0`, and then `int(str(n)) = n`, so the test
is `n = 0`; for a string the test is `isdigit` plus digit value zero;
booleans render as `True`/`False` and containers render with brackets, so
they never pass `isdigit`. -/
def result_code_zero : Json → Bool
  | Json.num n => n == 0
  | Json.str s => pyIsDigit s && digitsVal s == 0
  | _ => false

/-- The test `isinstance(status_field, str) and status_field.lower() in
("success", "completed", "ok")`. -/
def status_success : Json → Bool
  | Json.str s =>
    pyLower s == "success" || pyLower s == "completed" || pyLower s == "ok"
  | _ => false

/-- The success determination of `process_callback_payload` (lines
933-941): the result-code test, `elif` the textual-status test. -/
def determine_success (rc sf : Option Json) : Bool :=
  (match rc with | some v => result_code_zero v | none => false) ||
  (match sf with | some v => status_success v | none => false)

/-- External-reference aliases searched over the whole payload (line 905). -/
def refAliases : List String :=
  ["ExternalReference", "external_reference", "externalReference",
   "reference", "reference_no"]

/-- External-reference aliases used by the `response` fallback (line 910);
note `reference_no` is absent here. -/
def refAliases2 : List String :=
  ["ExternalReference", "external_reference", "externalReference",
   "reference"]

/-- Result-code aliases (line 911). -/
def codeAliases : List String := ["ResultCode", "result_code", "resultcode"]

/-- Textual-status aliases (line 912). -/
def statusAliases : List String :=
  ["Status", "status", "status_text", "statusText"]

/-- A row of the `pending_payments` table.  `created_at` is the insertion
timestamp (threaded explicitly since wall-clock time is abstracted). -/
structure Pending where
  chat_id : Int
  movie_id : Option String
  amount : Rat
  ptype : String
  phone : String
  status : String
  checkout_id : Option String
  created_at : Int

/-- A row of the `movies` table.  `file_id` is nullable in the schema;
`movie.get("file_id")` treats `NULL` and the empty string as falsy. -/
structure Movie where
  title : String
  price : Rat
  file_id : Option String
  thumb_url : String
  description : String

/-- A row of the `purchases` table (autoincrement id and timestamp
abstracted). -/
structure Purchase where
  chat_id : Int
  movie_id : Option String
  amount : Rat
  method : String
  external_ref : Option String

/-- Observable side effects of the reconciliation pipeline: chat messages
to the paying account, chat messages to the admin account
(`ADMIN_TELEGRAM_ID` is assumed configured), content delivery, and
warning/error-level log writes.  The unconditional info-level trace at
function entry is not modelled. -/
inductive Event where
  | userMsg : Int → String → Event
  | adminMsg : String → Event
  | deliver : Int → String → Event
  | logWarn : String → Event

/-- Response body shape of the callback pipeline: `status` plus an
optional `message`, serialized by `jsonify`. -/
structure Resp where
  status : Bool
  message : Option String

/-- The four tables of the SQLite database. -/
structure Store where
  users : List (Int × Rat)
  movies : List (String × Movie)
  purchases : List Purchase
  pending : List (String × Pending)

/-- First row with the given user key (`chat_id` is the primary key). -/
def lookupBal : List (Int × Rat) → Int → Option Rat
  | [], _ => none
  | (k, b) :: rest, c => if k = c then some b else lookupBal rest c

/-- First row with the given pending-payment key. -/
def lookupPend : List (String × Pending) → String → Option Pending
  | [], _ => none
  | (k, p) :: rest, r => if k = r then some p else lookupPend rest r

/-- First row with the given movie key. -/
def lookupMovie : List (String × Movie) → String → Option Movie
  | [], _ => none
  | (k, m) :: rest, i => if k = i then some m else lookupMovie rest i

/-- Function `ensure_user`: `INSERT OR IGNORE INTO users(chat_id, balance)
VALUES (?, 0)`. -/
def ensure_user (s : Store) (chat_id : Int) : Store :=
  if (lookupBal s.users chat_id).isSome then s
  else { s with users := s.users ++ [(chat_id, 0)] }

/-- Function `get_balance`: `0.0` when the user row is absent. -/
def get_balance (s : Store) (chat_id : Int) : Rat :=
  match lookupBal s.users chat_id with
  | some b => b
  | none => 0

/-- Row-wise `UPDATE users SET balance = f(balance) WHERE chat_id = ?`: the update
applies to every row matching the key (the primary key makes it unique in
practice). -/
def updateBal : List (Int × Rat) → Int → (Rat → Rat) → List (Int × Rat)
  | [], _, _ => []
  | (k, b) :: rest, chat_id, f =>
    (if k = chat_id then (k, f b) else (k, b)) :: updateBal rest chat_id f

/-- Function `add_balance`: ensure the row exists, then
`UPDATE users SET balance = balance + ?`. -/
def add_balance (s : Store) (chat_id : Int) (amount : Rat) : Store :=
  let s := ensure_user s chat_id
  { s with users := updateBal s.users chat_id (· + amount) }

/-- Function `set_balance`: ensure the row exists, then
`UPDATE users SET balance = ?`. -/
def set_balance (s : Store) (chat_id : Int) (amount : Rat) : Store :=
  let s := ensure_user s chat_id
  { s with users := updateBal s.users chat_id (fun _ => amount) }

/-- The `1e-9` tolerance in `charge_balance`. -/
def chargeEpsilon : Rat := 1 / 1000000000

/-- Function `charge_balance` (lines 158-169): read the balance; fail if the row is
absent or `balance < amount - 1e-9`; otherwise
`UPDATE users SET balance = balance - ?` and succeed. -/
def charge_balance (s : Store) (chat_id : Int) (amount : Rat) : Bool × Store :=
  match lookupBal s.users chat_id with
  | none => (false, s)
  | some bal =>
    if bal < amount - chargeEpsilon then (false, s)
    else (true, { s with users := updateBal s.users chat_id (· - amount) })

/-- The `/admin_add` branch of `cmd_admin_modify` (lines 717-719):
`ensure_user(target); add_balance(target, amount)`. -/
def admin_add (s : Store) (target : Int) (amount : Rat) : Store :=
  add_balance (ensure_user s target) target amount

/-- The `/admin_remove` branch of `cmd_admin_modify` (lines 726-729):
`newbal = max(0.0, bal - amount); set_balance(target, newbal)`. -/
def admin_remove (s : Store) (target : Int) (amount : Rat) : Store :=
  let s1 := ensure_user s target
  set_balance s1 target (max 0 (get_balance s1 target - amount))

/-- Function `get_movie`; for a purchase intent the stored `movie_id` may be
`NULL`, in which case the lookup finds nothing. -/
def get_movie (s : Store) (movie_id : Option String) : Option Movie :=
  match movie_id with
  | some mid => lookupMovie s.movies mid
  | none => none

/-- Function `record_purchase`: plain `INSERT INTO purchases`. -/
def record_purchase (s : Store) (chat_id : Int) (movie_id : Option String)
    (amount : Rat) (method : String) (external_ref : Option String) : Store :=
  { s with purchases := s.purchases ++
      [⟨chat_id, movie_id, amount, method, external_ref⟩] }

/-- Function `create_pending_payment` (lines 205-214): `INSERT OR REPLACE INTO
pending_payments ... VALUES (..., "QUEUED", ...)` — a conflicting row with
the same `external_ref` primary key is deleted and the new row inserted. -/
def create_pending_payment (s : Store) (external_ref : String) (chat_id : Int)
    (movie_id : Option String) (amount : Rat) (ptype : String) (phone : String)
    (checkout_id : Option String) (now : Int) : Store :=
  { s with pending :=
      (s.pending.filter fun kv => kv.1 != external_ref) ++
      [(external_ref, ⟨chat_id, movie_id, amount, ptype, phone, "QUEUED",
                       checkout_id, now⟩)] }

/-- Function `get_pending`. -/
def get_pending (s : Store) (external_ref : String) : Option Pending :=
  lookupPend s.pending external_ref

/-- Row-wise form of `UPDATE pending_payments SET status = ? WHERE
external_ref = ?`. -/
def updatePendStatus : List (String × Pending) → String → String →
    List (String × Pending)
  | [], _, _ => []
  | (k, p) :: rest, external_ref, status =>
    (if k = external_ref then (k, { p with status := status }) else (k, p)) ::
      updatePendStatus rest external_ref status

/-- Function `set_pending_status` (lines 224-229): `UPDATE pending_payments SET
status = ? WHERE external_ref = ?`, unconditional — there is no
terminal-state guard, and an absent key makes it a no-op. -/
def set_pending_status (s : Store) (external_ref : String) (status : String) :
    Store :=
  { s with pending := updatePendStatus s.pending external_ref status }

/-- Resolution of the external reference (lines 905-910).  First the full
alias search; if the result is falsy, the fallback
`if "response" in payload and isinstance(payload["response"], dict)` runs:
for a dict payload this re-searches the wrapped object with the shorter
alias list; for a string or list payload the membership test runs and,
when it succeeds, the subsequent `payload["response"]` indexing raises a
`TypeError` (modelled as `Except.error`); for any other payload the `in`
operator itself raises `TypeError`. -/
def resolveExternal (payload : Json) : Except Unit (Option Json) :=
  let e1 := deep_find refAliases payload
  if optTruthy e1 then Except.ok e1
  else
    match payload with
    | Json.obj fields =>
      match lookupField fields "response" with
      | some (Json.obj rf) => Except.ok (deep_find refAliases2 (Json.obj rf))
      | _ => Except.ok e1
    | Json.str s => if strContainsResp s then Except.error () else Except.ok e1
    | Json.arr xs => if containsRespStr xs then Except.error () else Except.ok e1
    | _ => Except.error ()

/-- The value bound for `external_ref = ?` in `get_pending`.  The
`external_ref` column has TEXT affinity, so SQLite converts a numeric or
boolean parameter to its decimal text before comparing; a list or dict
parameter makes the Python sqlite3 driver raise `InterfaceError`
(modelled as `Except.error`).  `null` never reaches this point because it
is falsy. -/
def bindParam : Json → Except Unit String
  | Json.str s => Except.ok s
  | Json.num n => Except.ok (toString n)
  | Json.bool b => Except.ok (if b then "1" else "0")
  | _ => Except.error ()

/-- Function `process_callback_payload` (lines 878-984).  Returns the response
body, the HTTP status code, the store after the call, and the emitted
events; `Except.error` models an uncaught exception (Flask answers 500).

Branches, in source order: missing/falsy external reference (line 914);
unknown reference (line 924); success determination (line 934); on
success the status is set first, then for `topup` the balance is credited
and a purchase row appended, for `purchase` the movie is delivered and a
purchase row appended when the movie exists and has a truthy `file_id`,
otherwise only a user notification is sent; a successful intent whose
`type` is neither string falls off the end of the Python function
(`None` is returned and the caller's tuple unpacking raises); on failure
the status is set to `failed` and the user notified.  The outbound chat
sends themselves are modelled as always succeeding, so the
`except`-branch of the delivery block is unreachable in the model. -/
def process_callback_payload (s : Store) (payload : Json) :
    Except Unit (Resp × Nat × Store × List Event) :=
  match resolveExternal payload with
  | Except.error e => Except.error e
  | Except.ok external =>
    if optTruthy external then
      match external with
      | none => Except.error ()
      | some ev =>
        match bindParam ev with
        | Except.error e => Except.error e
        | Except.ok ref =>
          match get_pending s ref with
          | none =>
            Except.ok (⟨false, some "unknown external reference"⟩, 200, s,
              [Event.logWarn "Unknown external reference",
               Event.adminMsg "Unknown external ref"])
          | some p =>
            let success := determine_success (deep_find codeAliases payload)
              (deep_find statusAliases payload)
            if success then
              let s1 := set_pending_status s ref "success"
              if p.ptype = "topup" then
                let s2 := add_balance s1 p.chat_id p.amount
                let s3 := record_purchase s2 p.chat_id none p.amount
                  "stk_topup" (some ref)
                Except.ok (⟨true, none⟩, 200, s3,
                  [Event.userMsg p.chat_id "Top-up successful"])
              else if p.ptype = "purchase" then
                match get_movie s1 p.movie_id with
                | some m =>
                  match m.file_id with
                  | some fid =>
                    if fid = "" then
                      Except.ok (⟨false, some "movie missing"⟩, 200, s1,
                        [Event.userMsg p.chat_id
                          "Payment confirmed but movie missing"])
                    else
                      let s2 := record_purchase s1 p.chat_id p.movie_id
                        p.amount "stk" (some ref)
                      Except.ok (⟨true, none⟩, 200, s2,
                        [Event.userMsg p.chat_id "Payment confirmed",
                         Event.deliver p.chat_id fid])
                  | none =>
                    Except.ok (⟨false, some "movie missing"⟩, 200, s1,
                      [Event.userMsg p.chat_id
                        "Payment confirmed but movie missing"])
                | none =>
                  Except.ok (⟨false, some "movie missing"⟩, 200, s1,
                    [Event.userMsg p.chat_id
                      "Payment confirmed but movie missing"])
              else
                Except.error ()
            else
              let s1 := set_pending_status s ref "failed"
              Except.ok (⟨true, some "not success"⟩, 200, s1,
                [Event.userMsg p.chat_id
                  (if p.ptype = "topup" then "Top-up attempt failed"
                   else "Payment for your purchase failed")])
    else
      Except.ok (⟨false, some "missing external reference"⟩, 200, s,
        [Event.logWarn "Callback missing external ref",
         Event.adminMsg "Callback missing external reference"])

/-- The payload a webhook POST handler ends up with, as a function of the
two parse outcomes it can observe: `direct` is the result of parsing the
raw body as JSON (`request.get_json(force=True, silent=True)`, re-run as
`json.loads(raw)`), `substr` is the result of parsing the first
brace-delimited substring of the raw body.  When the direct parse
succeeds the substring fallback is never attempted, even if the parsed
value is falsy, because re-running `json.loads(raw)` raises no
exception. -/
def extract_payload (direct substr : Option Json) : Option Json :=
  match direct with
  | some v => some v
  | none => substr

/-- The POST branch shared by `root_handler` (lines 993-1021) and
`payhero_callback` (lines 1030-1054); the two differ only in the body of
the 400 answer (`"empty or invalid POST body"` vs `"bad request"`).
A falsy or absent payload is answered 400 before reconciliation runs. -/
def webhook_post (msg400 : String) (s : Store) (direct substr : Option Json) :
    Except Unit (Resp × Nat × Store × List Event) :=
  match extract_payload direct substr with
  | some v =>
    if jsonTruthy v then process_callback_payload s v
    else Except.ok (⟨false, some msg400⟩, 400, s, [])
  | none => Except.ok (⟨false, some msg400⟩, 400, s, [])

/-- Store component of a pipeline result, with the pre-call store as the
value for the exceptional case (an uncaught exception commits none of the
model's writes beyond those already made; our exceptional paths write
nothing). -/
def storeAfter (r : Except Unit (Resp × Nat × Store × List Event))
    (s0 : Store) : Store :=
  match r with
  | Except.ok (_, _, s, _) => s
  | Except.error _ => s0

/-- Python `str.strip()`: drop leading and trailing whitespace. -/
def pyStrip (s : List Char) : List Char :=
  ((s.dropWhile Char.isWhitespace).reverse.dropWhile Char.isWhitespace).reverse

/-- The characters of `"+254"`. -/
def plus254 : List Char := ['+', '2', '5', '4']

/-- The branch ladder of `normalize_phone` applied to the cleaned-up
digits `txt` (after strip/replace). -/
def normPhoneBody (txt : List Char) : Option (List Char) :=
  if charsHavePre plus254 txt ∧ 12 ≤ txt.length then some txt
  else if charsHavePre ['0', '7'] txt || charsHavePre ['0', '1'] txt then
    some (plus254 ++ txt.drop 1)
  else if charsHavePre ['7'] txt || charsHavePre ['1'] txt then
    some (plus254 ++ txt)
  else if charsHavePre ['2', '5', '4'] txt ∧ 12 ≤ txt.length then
    some ('+' :: txt)
  else none

/-- Function `normalize_phone` (lines 251-274), with Python strings modelled as
character lists.  `replace(" ", "")` and `replace("-", "")` remove every
space and dash; `txt[1:]` is `drop 1`; `len(txt)` is the character
count. -/
def normalize_phone (text : List Char) : Option (List Char) :=
  if text.isEmpty then none
  else normPhoneBody
    (((pyStrip text).filter (fun c => c != ' ')).filter (fun c => c != '-'))

/-- Whether a purchase intent has a deliverable movie: the catalog row
exists and its content reference is truthy
(`movie and movie.get("file_id")`). -/
def deliverable (s : Store) (mid : Option String) : Bool :=
  match get_movie s mid with
  | some m => match m.file_id with | some fid => fid != "" | none => false
  | none => false

/-- The empty database. -/
def emptyStore : Store :=
  { users := [], movies := [], purchases := [], pending := [] }

/-- A store with one user of balance 0 (concrete test fixture). -/
def zeroBalStore : Store :=
  { users := [(7, 0)], movies := [], purchases := [], pending := [] }

/-- A store with one user of balance 100 (concrete test fixture). -/
def richStore : Store :=
  { users := [(9, 100)], movies := [], purchases := [], pending := [] }

/-- A store holding a queued `topup` intent of amount 50 for account 1. -/
def tpStore : Store :=
  { users := [(1, 0)], movies := [], purchases := [],
    pending := [("TOPUP-1-1",
      ⟨1, none, 50, "topup", "+254700000001", "QUEUED", none, 0⟩)] }

/-- A successful callback payload for that intent. -/
def tpSuccess : Json :=
  Json.obj [("external_reference", Json.str "TOPUP-1-1"),
            ("ResultCode", Json.num 0)]

/-- A failed callback payload for the same intent. -/
def tpFail : Json :=
  Json.obj [("external_reference", Json.str "TOPUP-1-1"),
            ("Status", Json.str "Failed")]

/-- Store after the first delivery of the successful topup callback. -/
def tpAfter1 : Store := storeAfter (process_callback_payload tpStore tpSuccess) tpStore

/-- Store after the identical callback is delivered a second time. -/
def tpAfter2 : Store := storeAfter (process_callback_payload tpAfter1 tpSuccess) tpAfter1

/-- Store after a failure callback arrives for the already-successful
intent. -/
def tpAfterFail : Store := storeAfter (process_callback_payload tpAfter1 tpFail) tpAfter1

/-- A store holding a queued `purchase` intent whose movie is not in the
catalog. -/
def purStore : Store :=
  { users := [(1, 0)], movies := [], purchases := [],
    pending := [("PUR-1-xv-1",
      ⟨1, some "xv 1", 5, "purchase", "+254700000001", "QUEUED", none, 0⟩)] }

/-- A successful callback payload for the purchase intent. -/
def purSuccess : Json :=
  Json.obj [("external_reference", Json.str "PUR-1-xv-1"),
            ("ResultCode", Json.num 0)]

/-- The purchase store with the intent finalized `success`. -/
def purAfter : Store := set_pending_status purStore "PUR-1-xv-1" "success"

/-- A store holding an in-flight intent under reference `R` that already
reached a terminal status. -/
def c3Store : Store :=
  { users := [], movies := [], purchases := [],
    pending := [("R",
      ⟨1, none, 50, "topup", "+254700000001", "success", none, 0⟩)] }

/-- A truthy payload carrying an unknown reference (fixture for the
webhook-handler witness). -/
def c4wPayload : Json := Json.obj [("reference", Json.str "X")]

theorem lookupBal_updateBal (l : List (Int × Rat)) (c : Int) (f : Rat → Rat) :
    lookupBal (updateBal l c f) c = (lookupBal l c).map f := by
  induction l with
  | nil => rfl
  | cons kv rest ih =>
    obtain ⟨k, b⟩ := kv
    show lookupBal ((if k = c then (k, f b) else (k, b)) :: updateBal rest c f) c
        = (if k = c then some b else lookupBal rest c).map f
    by_cases hk : k = c
    · rw [if_pos hk, if_pos hk]
      simp [lookupBal, hk]
    · rw [if_neg hk, if_neg hk]
      simp [lookupBal, hk, ih]

theorem lookupBal_append_absent (l : List (Int × Rat)) (c : Int) (b : Rat)
    (h : lookupBal l c = none) : lookupBal (l ++ [(c, b)]) c = some b := by
  induction l with
  | nil => simp [lookupBal]
  | cons kv rest ih =>
    obtain ⟨k, v⟩ := kv
    by_cases hk : k = c
    · simp [lookupBal, hk] at h
    · simp [lookupBal, hk] at h ⊢
      exact ih h

theorem lookupBal_ensure (s : Store) (c : Int) :
    lookupBal (ensure_user s c).users c = some (get_balance s c) := by
  unfold ensure_user get_balance
  cases hl : lookupBal s.users c with
  | some b => simp [hl]
  | none => simp [hl, lookupBal_append_absent _ _ _ hl]

theorem get_balance_add (s : Store) (c : Int) (a : Rat) :
    get_balance (add_balance s c a) c = get_balance s c + a := by
  unfold add_balance
  simp [get_balance, lookupBal_updateBal, lookupBal_ensure]

theorem get_balance_set (s : Store) (c : Int) (v : Rat) :
    get_balance (set_balance s c v) c = v := by
  unfold set_balance
  simp [get_balance, lookupBal_updateBal, lookupBal_ensure]

theorem lookupPend_updateStatus (l : List (String × Pending)) (r st : String) :
    lookupPend (updatePendStatus l r st) r =
      (lookupPend l r).map fun p => { p with status := st } := by
  induction l with
  | nil => rfl
  | cons kv rest ih =>
    obtain ⟨k, p⟩ := kv
    show lookupPend ((if k = r then (k, { p with status := st }) else (k, p)) ::
        updatePendStatus rest r st) r
        = (if k = r then some p else lookupPend rest r).map
            fun q => { q with status := st }
    by_cases hk : k = r
    · rw [if_pos hk, if_pos hk]
      simp [lookupPend, hk]
    · rw [if_neg hk, if_neg hk]
      simp [lookupPend, hk, ih]

theorem get_pending_set_pending_status (s : Store) (r st : String) :
    get_pending (set_pending_status s r st) r =
      (get_pending s r).map fun p => { p with status := st } := by
  simpa [get_pending, set_pending_status] using
    lookupPend_updateStatus s.pending r st

theorem lookupPend_create (l : List (String × Pending)) (r : String) (p : Pending) :
    lookupPend ((l.filter fun kv => kv.1 != r) ++ [(r, p)]) r = some p := by
  induction l with
  | nil => simp [lookupPend]
  | cons kv rest ih =>
    obtain ⟨k, q⟩ := kv
    by_cases hk : k = r
    · simp [List.filter_cons, hk, ih]
    · simp [List.filter_cons, hk, lookupPend, ih]

theorem ensure_user_pending (s : Store) (c : Int) :
    (ensure_user s c).pending = s.pending := by
  unfold ensure_user
  split <;> rfl

theorem add_balance_pending (s : Store) (c : Int) (a : Rat) :
    (add_balance s c a).pending = s.pending := by
  unfold add_balance
  simp [ensure_user_pending]

theorem record_purchase_pending (s : Store) (c : Int) (m : Option String)
    (a : Rat) (meth : String) (er : Option String) :
    (record_purchase s c m a meth er).pending = s.pending := rfl

theorem set_pending_status_movies (s : Store) (r st : String) :
    (set_pending_status s r st).movies = s.movies := rfl

theorem set_pending_status_users (s : Store) (r st : String) :
    (set_pending_status s r st).users = s.users := rfl

theorem set_pending_status_purchases (s : Store) (r st : String) :
    (set_pending_status s r st).purchases = s.purchases := rfl

theorem get_balance_ensure (s : Store) (c : Int) :
    get_balance (ensure_user s c) c = get_balance s c := by
  have h := lookupBal_ensure s c
  simp [get_balance, h]

theorem charge_false_frame (s : Store) (c : Int) (a : Rat)
    (h : (charge_balance s c a).1 = false) : (charge_balance s c a).2 = s := by
  cases hl : lookupBal s.users c with
  | none => simp [charge_balance, hl]
  | some bal =>
    by_cases hb : bal < a - chargeEpsilon
    · simp [charge_balance, hl, hb]
    · simp [charge_balance, hl, hb] at h

theorem charge_true_bound (s : Store) (c : Int) (a : Rat)
    (h : (charge_balance s c a).1 = true) :
    -chargeEpsilon ≤ get_balance (charge_balance s c a).2 c := by
  cases hl : lookupBal s.users c with
  | none => simp [charge_balance, hl] at h
  | some bal =>
    by_cases hb : bal < a - chargeEpsilon
    · simp [charge_balance, hl, hb] at h
    · simp [charge_balance, hl, hb, get_balance, lookupBal_updateBal]
      have hb3 : a - chargeEpsilon ≤ bal := not_lt.mp hb
      linarith

theorem admin_remove_nonneg (s : Store) (t : Int) (a : Rat) :
    0 ≤ get_balance (admin_remove s t a) t := by
  unfold admin_remove
  rw [get_balance_set]
  exact le_max_left 0 _

theorem admin_add_nonneg (s : Store) (t : Int) (a : Rat)
    (hb : 0 ≤ get_balance s t) (ha : 0 ≤ a) :
    0 ≤ get_balance (admin_add s t a) t := by
  unfold admin_add
  rw [get_balance_add, get_balance_ensure]
  linarith

theorem charsHavePre_append (p x : List Char) :
    charsHavePre p (p ++ x) = true := by
  induction p with
  | nil => rfl
  | cons a as ih => simp [charsHavePre, ih]

/-- C8 (amended): `charge_balance` either fails and leaves the store
unchanged, or succeeds and leaves the charged account with a balance no
lower than `-1e-9` (the epsilon in the sufficiency check allows the
balance to go below zero by up to the tolerance); the admin removal
operation never produces a negative balance; the admin credit operation
preserves non-negativity for non-negative amounts (a negative amount
passed to `/admin_add` can drive the balance negative). -/
theorem c8_amended :
    (∀ (s : Store) (c : Int) (a : Rat),
        (charge_balance s c a).1 = false → (charge_balance s c a).2 = s) ∧
    (∀ (s : Store) (c : Int) (a : Rat),
        (charge_balance s c a).1 = true →
        -chargeEpsilon ≤ get_balance (charge_balance s c a).2 c) ∧
    (∀ (s : Store) (t : Int) (a : Rat),
        0 ≤ get_balance (admin_remove s t a) t) ∧
    (∀ (s : Store) (t : Int) (a : Rat), 0 ≤ get_balance s t → 0 ≤ a →
        0 ≤ get_balance (admin_add s t a) t) :=
  ⟨charge_false_frame, charge_true_bound, admin_remove_nonneg, admin_add_nonneg⟩

/-- Witness for C8: the amended statement instantiated at account 9 of a
store with balance 100 (failed charge of 1000, successful charge of 40,
admin removal of 500, admin credit of 3). -/
theorem c8_amended_witness :
    (charge_balance richStore 9 1000).2 = richStore ∧
    -chargeEpsilon ≤ get_balance (charge_balance richStore 9 40).2 9 ∧
    0 ≤ get_balance (admin_remove richStore 9 500) 9 ∧
    0 ≤ get_balance (admin_add richStore 9 3) 9 :=
  ⟨c8_amended.1 richStore 9 1000
     (by norm_num [charge_balance, richStore, lookupBal, chargeEpsilon]),
   c8_amended.2.1 richStore 9 40
     (by norm_num [charge_balance, richStore, lookupBal, chargeEpsilon]),
   c8_amended.2.2.1 richStore 9 500,
   c8_amended.2.2.2 richStore 9 3
     (by norm_num [get_balance, richStore, lookupBal]) (by norm_num)⟩

/-- C8 counterexample: with balance 0, a charge of `1e-10` passes the
`balance < amount - 1e-9` sufficiency check, succeeds, and leaves a
negative balance; and `/admin_add` with amount `-5` drives the balance
to `-5`.  This refutes the claim that a successful `charge_balance`
always leaves a balance `≥ 0` and that the admin credit operation never
produces a negative balance. -/
theorem c8_negative_balance_counterexample :
    (charge_balance zeroBalStore 7 (1 / 10000000000)).1 = true ∧
    get_balance (charge_balance zeroBalStore 7 (1 / 10000000000)).2 7 < 0 ∧
    get_balance (admin_add zeroBalStore 7 (-5)) 7 < 0 := by
  refine ⟨?_, ?_, ?_⟩ <;>
    norm_num [charge_balance, admin_add, add_balance, ensure_user, get_balance,
      zeroBalStore, lookupBal, updateBal, chargeEpsilon]

/-- C3 (amended): `create_pending_payment` never fails; for every store,
including one already holding a record under the same reference, it
installs a fresh `QUEUED` intent with the caller's attributes under that
reference (`INSERT OR REPLACE` semantics) — the pre-existing record is
replaced, not preserved, and no duplicate-reference error exists. -/
theorem c3_create_replaces (s : Store) (r : String) (chat : Int)
    (mid : Option String) (amt : Rat) (pt ph : String) (co : Option String)
    (now : Int) :
    get_pending (create_pending_payment s r chat mid amt pt ph co now) r =
      some ⟨chat, mid, amt, pt, ph, "QUEUED", co, now⟩ := by
  simpa [get_pending, create_pending_payment] using
    lookupPend_create s.pending r _

/-- C3 counterexample: a store already holds an intent under reference
`R` (account 1, status `success`); a second `create_pending_payment` for
`R` silently replaces it with a fresh `QUEUED` intent for account 2
instead of failing with a duplicate-reference error. -/
theorem c3_overwrite_counterexample :
    (get_pending c3Store "R").map Pending.status = some "success" ∧
    (get_pending c3Store "R").map Pending.chat_id = some 1 ∧
    (get_pending (create_pending_payment c3Store "R" 2 none 99 "topup"
        "+254700000002" none 5) "R").map Pending.status = some "QUEUED" ∧
    (get_pending (create_pending_payment c3Store "R" 2 none 99 "topup"
        "+254700000002" none 5) "R").map Pending.chat_id = some 2 := by decide

/-- C1: the failing run, evaluated.  The topup intent `TOPUP-1-1` of
amount 50 receives the same successful callback twice; the first run
credits account 1 to 50 and appends one purchase row, the second run —
the claim says it must be a no-op against the now-terminal intent —
credits again to 100 and appends a second purchase row, because
`process_callback_payload` never consults the stored status. -/
theorem c1_double_credit :
    get_balance tpAfter1 1 = 50 ∧ tpAfter1.purchases.length = 1 ∧
    (get_pending tpAfter1 "TOPUP-1-1").map Pending.status = some "success" ∧
    get_balance tpAfter2 1 = 100 ∧ tpAfter2.purchases.length = 2 := by
  refine ⟨?_, by decide, by decide, ?_, by decide⟩ <;>
    norm_num [tpAfter1, tpAfter2, storeAfter, process_callback_payload,
      resolveExternal, deep_find, keyHit, lookupField, refAliases, optTruthy,
      jsonTruthy, bindParam, get_pending, lookupPend, determine_success,
      result_code_zero, codeAliases, statusAliases, tpStore, tpSuccess,
      set_pending_status, updatePendStatus, add_balance, ensure_user,
      lookupBal, updateBal, get_balance, record_purchase]

/-- C2: the failing run, evaluated.  After the successful callback the
intent is terminal (`success`); a later failure callback for the same
reference moves it to `failed`, and a bare `set_pending_status` can even
move it back to `QUEUED` — the status is not monotone because neither
`process_callback_payload` nor `set_pending_status` guards terminal
states. -/
theorem c2_terminal_status_flips :
    (get_pending tpAfter1 "TOPUP-1-1").map Pending.status = some "success" ∧
    (get_pending tpAfterFail "TOPUP-1-1").map Pending.status = some "failed" ∧
    (get_pending (set_pending_status tpAfter1 "TOPUP-1-1" "QUEUED")
        "TOPUP-1-1").map Pending.status = some "QUEUED" := by
  refine ⟨by decide, by decide, by decide⟩

theorem normPhoneBody_plus254 (txt r : List Char)
    (h : normPhoneBody txt = some r) : charsHavePre plus254 r = true := by
  unfold normPhoneBody at h
  · split at h
    · rename_i hc
      rw [Option.some_inj] at h
      subst h
      exact hc.1
    · split at h
      · rw [Option.some_inj] at h
        subst h
        exact charsHavePre_append plus254 _
      · split at h
        · rw [Option.some_inj] at h
          subst h
          exact charsHavePre_append plus254 _
        · split at h
          · rename_i hc
            rw [Option.some_inj] at h
            subst h
            simpa [plus254, charsHavePre] using hc.1
          · exact absurd h (by simp)

/-- C10: every accepted phone number is returned in `+254...` format —
`normalize_phone` yields either `None` or a string beginning with
`"+254"`. -/
theorem c10_normalize_phone_plus254 (t r : List Char)
    (h : normalize_phone t = some r) : charsHavePre plus254 r = true := by
  unfold normalize_phone at h
  split at h
  · exact absurd h (by simp)
  · exact normPhoneBody_plus254 _ r h

/-- Witness for C10 at the concrete input `"0712345678"`. -/
theorem c10_normalize_phone_plus254_witness :
    charsHavePre plus254 "+254712345678".toList = true :=
  c10_normalize_phone_plus254 "0712345678".toList "+254712345678".toList
    (by decide)

theorem process_ok_code (s : Store) (p : Json) (r : Resp) (c : Nat)
    (s2 : Store) (ev : List Event)
    (h : process_callback_payload s p = Except.ok (r, c, s2, ev)) : c = 200 := by
  unfold process_callback_payload at h
  repeat' split at h
  all_goals try simp_all
  all_goals (repeat' split at h)
  all_goals simp_all

/-- C4 (amended): for every POST body, the webhook handlers answer 400,
with a failure body and no store change, exactly when every extraction
attempt yields no JSON value or only a falsy one (such as the empty
object, `0`, or the empty list) — not merely when no value is parseable;
whenever a truthy JSON value is extracted and reconciliation completes
without raising, the answer is HTTP 200 with a body of shape
`status`-plus-optional-`message` (certain truthy non-object payloads make
reconciliation raise, which surfaces as HTTP 500 instead). -/
theorem c4_amended (msg : String) (s : Store) (direct substr : Option Json)
    (r : Resp) (c : Nat) (s2 : Store) (ev : List Event)
    (h : webhook_post msg s direct substr = Except.ok (r, c, s2, ev)) :
    (c = 200 ∨ c = 400) ∧
    (c = 400 ↔ optTruthy (extract_payload direct substr) = false) ∧
    (c = 400 → r = ⟨false, some msg⟩ ∧ s2 = s ∧ ev = []) := by
  unfold webhook_post at h
  cases hp : extract_payload direct substr with
  | none =>
    rw [hp] at h
    simp only [Except.ok.injEq, Prod.mk.injEq] at h
    obtain ⟨hr, hc, hs, hev⟩ := h
    subst hr
    subst hc
    subst hs
    subst hev
    exact ⟨Or.inr rfl, by simp [optTruthy], fun _ => ⟨rfl, rfl, rfl⟩⟩
  | some v =>
    rw [hp] at h
    by_cases ht : jsonTruthy v = true
    · simp only [ht, if_true] at h
      have h200 := process_ok_code s v r c s2 ev h
      subst h200
      refine ⟨Or.inl rfl, ?_, ?_⟩
      · simp [optTruthy, ht]
      · intro hcontra
        exact absurd hcontra (by omega)
    · simp only [ht, if_false, Bool.false_eq_true] at h
      simp only [Except.ok.injEq, Prod.mk.injEq] at h
      obtain ⟨hr, hc, hs, hev⟩ := h
      subst hr
      subst hc
      subst hs
      subst hev
      refine ⟨Or.inr rfl, ?_, fun _ => ⟨rfl, rfl, rfl⟩⟩
      simp only [optTruthy]
      simpa using ht

/-- C4 counterexample: the body `"{}"` parses to the empty JSON object —
a structurally parseable value — yet both webhook handlers answer 400
(the parsed value is falsy, so the handlers treat it like an absent
body), refuting "responds HTTP 200 whenever a JSON value is structurally
parseable". -/
theorem c4_falsy_body_counterexample :
    webhook_post "empty or invalid POST body" emptyStore
        (some (Json.obj [])) none =
      Except.ok (⟨false, some "empty or invalid POST body"⟩, 400,
        emptyStore, []) ∧
    webhook_post "bad request" emptyStore (some (Json.obj [])) none =
      Except.ok (⟨false, some "bad request"⟩, 400, emptyStore, []) :=
  ⟨rfl, rfl⟩

/-- Witness for C4: the amended statement instantiated at a truthy body
carrying an unknown reference, answered 200. -/
theorem c4_amended_witness :
    ((200 : Nat) = 200 ∨ (200 : Nat) = 400) ∧
    ((200 : Nat) = 400 ↔ optTruthy (extract_payload (some c4wPayload) none) = false) ∧
    ((200 : Nat) = 400 →
      (⟨false, some "unknown external reference"⟩ : Resp) =
          ⟨false, some "bad request"⟩ ∧
      emptyStore = emptyStore ∧
      ([Event.logWarn "Unknown external reference",
        Event.adminMsg "Unknown external ref"] : List Event) = []) :=
  c4_amended "bad request" emptyStore (some c4wPayload) none
    ⟨false, some "unknown external reference"⟩ 200 emptyStore
    [Event.logWarn "Unknown external reference",
     Event.adminMsg "Unknown external ref"] rfl

theorem result_code_zero_iff (v : Json) :
    result_code_zero v = true ↔
      ((∃ n : Int, v = Json.num n ∧ n = 0) ∨
       (∃ t : String, v = Json.str t ∧ pyIsDigit t = true ∧ digitsVal t = 0)) := by
  cases v <;> simp [result_code_zero]

theorem status_success_iff (v : Json) :
    status_success v = true ↔
      (∃ t : String, v = Json.str t ∧
        (pyLower t = "success" ∨ pyLower t = "completed" ∨ pyLower t = "ok")) := by
  cases v <;> simp [status_success, or_assoc]

theorem determine_success_iff (rc sf : Option Json) :
    determine_success rc sf = true ↔
      ((∃ v, rc = some v ∧ result_code_zero v = true) ∨
       (∃ v, sf = some v ∧ status_success v = true)) := by
  cases rc <;> cases sf <;> simp [determine_success]

theorem determine_success_spec_iff (payload : Json) :
    determine_success (deep_find codeAliases payload)
        (deep_find statusAliases payload) = true ↔
      ((∃ n : Int, deep_find codeAliases payload = some (Json.num n) ∧ n = 0) ∨
       (∃ t : String, deep_find codeAliases payload = some (Json.str t) ∧
          pyIsDigit t = true ∧ digitsVal t = 0) ∨
       (∃ t : String, deep_find statusAliases payload = some (Json.str t) ∧
          (pyLower t = "success" ∨ pyLower t = "completed" ∨
           pyLower t = "ok"))) := by
  rw [determine_success_iff]
  constructor
  · rintro (⟨v, hv, hz⟩ | ⟨v, hv, hs⟩)
    · rcases (result_code_zero_iff v).mp hz with ⟨n, rfl, hn⟩ | ⟨t, rfl, ht⟩
      · exact Or.inl ⟨n, hv, hn⟩
      · exact Or.inr (Or.inl ⟨t, hv, ht⟩)
    · rcases (status_success_iff v).mp hs with ⟨t, rfl, hl⟩
      exact Or.inr (Or.inr ⟨t, hv, hl⟩)
  · rintro (⟨n, hn, rfl⟩ | ⟨t, ht, hd1, hd2⟩ | ⟨t, ht, hl⟩)
    · exact Or.inl ⟨Json.num 0, hn, by simp [result_code_zero]⟩
    · exact Or.inl ⟨Json.str t, ht, by simp [result_code_zero, hd1, hd2]⟩
    · exact Or.inr ⟨Json.str t, ht, (status_success_iff _).mpr ⟨t, rfl, hl⟩⟩

theorem process_resolved_topup (s : Store) (payload : Json) (ev : Json)
    (ref : String) (p : Pending)
    (h1 : resolveExternal payload = Except.ok (some ev))
    (h2 : jsonTruthy ev = true)
    (h3 : bindParam ev = Except.ok ref)
    (h4 : get_pending s ref = some p)
    (h5 : p.ptype = "topup") :
    process_callback_payload s payload =
      (if determine_success (deep_find codeAliases payload)
            (deep_find statusAliases payload) = true then
        Except.ok (⟨true, none⟩, 200,
          record_purchase (add_balance (set_pending_status s ref "success")
            p.chat_id p.amount) p.chat_id none p.amount "stk_topup" (some ref),
          [Event.userMsg p.chat_id "Top-up successful"])
      else
        Except.ok (⟨true, some "not success"⟩, 200,
          set_pending_status s ref "failed",
          [Event.userMsg p.chat_id "Top-up attempt failed"])) := by
  unfold process_callback_payload
  rw [h1]
  simp [optTruthy, h2, h3, h4, h5]

theorem get_pending_topup_success_store (s : Store) (ref : String) (p : Pending)
    (h4 : get_pending s ref = some p) :
    get_pending (record_purchase (add_balance (set_pending_status s ref
        "success") p.chat_id p.amount) p.chat_id none p.amount "stk_topup"
        (some ref)) ref = some { p with status := "success" } := by
  have hp : (record_purchase (add_balance (set_pending_status s ref "success")
      p.chat_id p.amount) p.chat_id none p.amount "stk_topup"
      (some ref)).pending = updatePendStatus s.pending ref "success" := by
    rw [record_purchase_pending, add_balance_pending]
    rfl
  unfold get_pending
  rw [hp, lookupPend_updateStatus]
  unfold get_pending at h4
  rw [h4]
  rfl

theorem get_pending_record_purchase (s : Store) (c : Int) (m : Option String)
    (a : Rat) (meth : String) (er : Option String) (ref : String) :
    get_pending (record_purchase s c m a meth er) ref = get_pending s ref := rfl

theorem map_status_set_pending (s : Store) (ref st : String) (p : Pending)
    (h4 : get_pending s ref = some p) :
    (get_pending (set_pending_status s ref st) ref).map Pending.status =
      some st := by
  rw [get_pending_set_pending_status, h4]
  rfl

theorem get_pending_set_some (s : Store) (ref st : String) (p : Pending)
    (h4 : get_pending s ref = some p) :
    get_pending (set_pending_status s ref st) ref =
      some { p with status := st } := by
  rw [get_pending_set_pending_status, h4]
  rfl

theorem process_resolved_final_status (s : Store) (payload ev : Json)
    (ref : String) (p : Pending)
    (h1 : resolveExternal payload = Except.ok (some ev))
    (h2 : jsonTruthy ev = true)
    (h3 : bindParam ev = Except.ok ref)
    (h4 : get_pending s ref = some p)
    (h5 : p.ptype = "topup" ∨ p.ptype = "purchase") :
    (get_pending (storeAfter (process_callback_payload s payload) s) ref).map
        Pending.status =
      some (if determine_success (deep_find codeAliases payload)
          (deep_find statusAliases payload) = true then "success"
        else "failed") := by
  rcases h5 with h5 | h5
  · rw [process_resolved_topup s payload ev ref p h1 h2 h3 h4 h5]
    by_cases hd : determine_success (deep_find codeAliases payload)
        (deep_find statusAliases payload) = true
    · rw [if_pos hd, if_pos hd]
      simp only [storeAfter]
      rw [get_pending_topup_success_store s ref p h4]
      rfl
    · rw [if_neg hd, if_neg hd]
      simp only [storeAfter]
      exact map_status_set_pending s ref "failed" p h4
  · have hmov : get_movie (set_pending_status s ref "success") p.movie_id =
        get_movie s p.movie_id := rfl
    unfold process_callback_payload
    rw [h1]
    by_cases hd : determine_success (deep_find codeAliases payload)
        (deep_find statusAliases payload) = true
    · cases hm : get_movie s p.movie_id with
      | none =>
        simp [optTruthy, h2, h3, h4, h5, hd, hmov, hm, storeAfter]
        exact ⟨{ p with status := "success" },
          get_pending_set_some s ref "success" p h4, rfl⟩
      | some m =>
        cases hf : m.file_id with
        | none =>
          simp [optTruthy, h2, h3, h4, h5, hd, hmov, hm, hf, storeAfter]
          exact ⟨{ p with status := "success" },
            get_pending_set_some s ref "success" p h4, rfl⟩
        | some fid =>
          by_cases hfe : fid = ""
          · subst hfe
            simp [optTruthy, h2, h3, h4, h5, hd, hmov, hm, hf, storeAfter]
            exact ⟨{ p with status := "success" },
              get_pending_set_some s ref "success" p h4, rfl⟩
          · simp [optTruthy, h2, h3, h4, h5, hd, hmov, hm, hf, hfe,
              storeAfter, get_pending_record_purchase]
            exact ⟨{ p with status := "success" },
              get_pending_set_some s ref "success" p h4, rfl⟩
    · simp [optTruthy, h2, h3, h4, h5, hd, storeAfter]
      exact ⟨{ p with status := "failed" },
        get_pending_set_some s ref "failed" p h4, rfl⟩

/-- C5: for every resolved callback payload whose reference matches a
stored intent — the program creates intents only with kind `topup`
(line 842) or `purchase` (line 792), the two kinds of the data model —
reconciliation finalizes the intent to `success` if and only if the
extracted result code is the integer zero or an all-digit string of
value zero, or the extracted status is a string whose lower-casing is
`success`, `completed` or `ok`; every other combination — including both
fields absent — finalizes it to `failed`. -/
theorem c5_success_classification (s : Store) (payload ev : Json)
    (ref : String) (p : Pending)
    (h1 : resolveExternal payload = Except.ok (some ev))
    (h2 : jsonTruthy ev = true)
    (h3 : bindParam ev = Except.ok ref)
    (h4 : get_pending s ref = some p)
    (h5 : p.ptype = "topup" ∨ p.ptype = "purchase") :
    ((get_pending (storeAfter (process_callback_payload s payload) s) ref).map
        Pending.status = some "success" ↔
      ((∃ n : Int, deep_find codeAliases payload = some (Json.num n) ∧ n = 0) ∨
       (∃ t : String, deep_find codeAliases payload = some (Json.str t) ∧
          pyIsDigit t = true ∧ digitsVal t = 0) ∨
       (∃ t : String, deep_find statusAliases payload = some (Json.str t) ∧
          (pyLower t = "success" ∨ pyLower t = "completed" ∨
           pyLower t = "ok")))) := by
  rw [process_resolved_final_status s payload ev ref p h1 h2 h3 h4 h5]
  by_cases hd : determine_success (deep_find codeAliases payload)
      (deep_find statusAliases payload) = true
  · rw [if_pos hd]
    exact iff_of_true rfl ((determine_success_spec_iff payload).mp hd)
  · rw [if_neg hd]
    refine iff_of_false (by simp) ?_
    intro hrhs
    exact hd ((determine_success_spec_iff payload).mpr hrhs)

/-- Witness for C5 at the concrete topup fixture: the successful payload
carries result code 0, so the intent is finalized to `success`. -/
theorem c5_success_classification_witness :
    ((get_pending (storeAfter (process_callback_payload tpStore tpSuccess)
        tpStore) "TOPUP-1-1").map Pending.status = some "success" ↔
      ((∃ n : Int, deep_find codeAliases tpSuccess = some (Json.num n) ∧
          n = 0) ∨
       (∃ t : String, deep_find codeAliases tpSuccess = some (Json.str t) ∧
          pyIsDigit t = true ∧ digitsVal t = 0) ∨
       (∃ t : String, deep_find statusAliases tpSuccess = some (Json.str t) ∧
          (pyLower t = "success" ∨ pyLower t = "completed" ∨
           pyLower t = "ok")))) :=
  c5_success_classification tpStore tpSuccess (Json.str "TOPUP-1-1")
    "TOPUP-1-1" ⟨1, none, 50, "topup", "+254700000001", "QUEUED", none, 0⟩
    rfl rfl rfl rfl (Or.inl rfl)

theorem hasAnyKey_of_lookupField (ks : List String) (k : String)
    (fields : List (String × Json)) :
    hasAnyKeyFields ks fields = false → ∀ v, lookupField fields k = some v →
      hasAnyKey ks v = false := by
  induction fields with
  | nil =>
    intro _ v hv
    simp [lookupField] at hv
  | cons kv rest ih =>
    obtain ⟨k2, v2⟩ := kv
    intro hf v hv
    simp only [hasAnyKeyFields, Bool.or_eq_false_iff] at hf
    obtain ⟨⟨hc2, hv2⟩, hrest⟩ := hf
    rw [lookupField] at hv
    split at hv
    · cases hv
      exact hv2
    · exact ih hrest v hv

theorem lookupField_none_of_noKey (ks : List String) (k : String) (hk : k ∈ ks) :
    ∀ fields, hasAnyKeyFields ks fields = false → lookupField fields k = none := by
  intro fields
  induction fields with
  | nil => intro _; rfl
  | cons kv rest ih =>
    obtain ⟨k2, v2⟩ := kv
    intro hf
    simp only [hasAnyKeyFields, Bool.or_eq_false_iff] at hf
    obtain ⟨⟨hc2, _⟩, hrest⟩ := hf
    rw [lookupField]
    by_cases he : k2 = k
    · subst he
      have : ks.elem k2 = true := List.elem_eq_true_of_mem hk
      simp [List.contains] at hc2
      exact absurd this (by simp [hc2])
    · rw [if_neg he]
      exact ih hrest

theorem keyHit_none_of_noKey (ks : List String) (fields : List (String × Json))
    (hf : hasAnyKeyFields ks fields = false) :
    ∀ ks2, (∀ k, k ∈ ks2 → k ∈ ks) → keyHit ks2 fields = none := by
  intro ks2
  induction ks2 with
  | nil =>
    intro _
    rfl
  | cons k rest ih =>
    intro hsub
    have h1 : lookupField fields k = none :=
      lookupField_none_of_noKey ks k (hsub k (by simp)) fields hf
    simp only [keyHit, h1]
    exact ih fun x hx => hsub x (by simp [hx])

mutual

theorem deep_find_none_of_noKey (ks ks2 : List String)
    (hsub : ∀ k, k ∈ ks2 → k ∈ ks) :
    ∀ j, hasAnyKey ks j = false → deep_find ks2 j = none
  | Json.obj fields, h => by
    have hf : hasAnyKeyFields ks fields = false := by
      simpa [hasAnyKey] using h
    have h1 : keyHit ks2 fields = none := keyHit_none_of_noKey ks fields hf ks2 hsub
    have h2 : deepFindFields ks2 fields = none :=
      deepFindFields_none_of_noKey ks ks2 hsub fields hf
    simp [deep_find, h1, h2]
  | Json.null, _ => rfl
  | Json.bool _, _ => rfl
  | Json.num _, _ => rfl
  | Json.str _, _ => rfl
  | Json.arr _, _ => rfl

theorem deepFindFields_none_of_noKey (ks ks2 : List String)
    (hsub : ∀ k, k ∈ ks2 → k ∈ ks) :
    ∀ fields, hasAnyKeyFields ks fields = false →
      deepFindFields ks2 fields = none
  | [], _ => rfl
  | (k, Json.obj f2) :: rest, h => by
    simp only [hasAnyKeyFields, Bool.or_eq_false_iff] at h
    obtain ⟨⟨_, hv⟩, hrest⟩ := h
    have h1 : deep_find ks2 (Json.obj f2) = none :=
      deep_find_none_of_noKey ks ks2 hsub (Json.obj f2) hv
    have h2 := deepFindFields_none_of_noKey ks ks2 hsub rest hrest
    simp [deepFindFields, h1, h2]
  | (k, Json.arr items) :: rest, h => by
    simp only [hasAnyKeyFields, Bool.or_eq_false_iff] at h
    obtain ⟨⟨_, hv⟩, hrest⟩ := h
    have h1 : deepFindItems ks2 items = none :=
      deepFindItems_none_of_noKey ks ks2 hsub items (by simpa [hasAnyKey] using hv)
    have h2 := deepFindFields_none_of_noKey ks ks2 hsub rest hrest
    simp [deepFindFields, h1, h2]
  | (k, Json.null) :: rest, h => by
    simp only [hasAnyKeyFields, Bool.or_eq_false_iff] at h
    exact deepFindFields_none_of_noKey ks ks2 hsub rest h.2
  | (k, Json.bool _) :: rest, h => by
    simp only [hasAnyKeyFields, Bool.or_eq_false_iff] at h
    exact deepFindFields_none_of_noKey ks ks2 hsub rest h.2
  | (k, Json.num _) :: rest, h => by
    simp only [hasAnyKeyFields, Bool.or_eq_false_iff] at h
    exact deepFindFields_none_of_noKey ks ks2 hsub rest h.2
  | (k, Json.str _) :: rest, h => by
    simp only [hasAnyKeyFields, Bool.or_eq_false_iff] at h
    exact deepFindFields_none_of_noKey ks ks2 hsub rest h.2

theorem deepFindItems_none_of_noKey (ks ks2 : List String)
    (hsub : ∀ k, k ∈ ks2 → k ∈ ks) :
    ∀ items, hasAnyKeyItems ks items = false → deepFindItems ks2 items = none
  | [], _ => rfl
  | Json.obj f2 :: rest, h => by
    simp only [hasAnyKeyItems, Bool.or_eq_false_iff] at h
    obtain ⟨hv, hrest⟩ := h
    have h1 : deep_find ks2 (Json.obj f2) = none :=
      deep_find_none_of_noKey ks ks2 hsub (Json.obj f2) hv
    have h2 := deepFindItems_none_of_noKey ks ks2 hsub rest hrest
    simp [deepFindItems, h1, h2]
  | Json.null :: rest, h => by
    simp only [hasAnyKeyItems, Bool.or_eq_false_iff] at h
    exact deepFindItems_none_of_noKey ks ks2 hsub rest h.2
  | Json.bool _ :: rest, h => by
    simp only [hasAnyKeyItems, Bool.or_eq_false_iff] at h
    exact deepFindItems_none_of_noKey ks ks2 hsub rest h.2
  | Json.num _ :: rest, h => by
    simp only [hasAnyKeyItems, Bool.or_eq_false_iff] at h
    exact deepFindItems_none_of_noKey ks ks2 hsub rest h.2
  | Json.str _ :: rest, h => by
    simp only [hasAnyKeyItems, Bool.or_eq_false_iff] at h
    exact deepFindItems_none_of_noKey ks ks2 hsub rest h.2
  | Json.arr _ :: rest, h => by
    simp only [hasAnyKeyItems, Bool.or_eq_false_iff] at h
    exact deepFindItems_none_of_noKey ks ks2 hsub rest h.2

end

theorem refAliases2_sub : ∀ k, k ∈ refAliases2 → k ∈ refAliases := by
  intro k hk
  simp only [refAliases2, List.mem_cons, List.not_mem_nil, or_false] at hk
  rcases hk with rfl | rfl | rfl | rfl <;> simp [refAliases]

theorem resolveExternal_obj_none (fields : List (String × Json))
    (h : hasAnyKey refAliases (Json.obj fields) = false) :
    resolveExternal (Json.obj fields) = Except.ok none := by
  have hf : hasAnyKeyFields refAliases fields = false := by
    simpa [hasAnyKey] using h
  have h1 : deep_find refAliases (Json.obj fields) = none :=
    deep_find_none_of_noKey refAliases refAliases (fun _ hk => hk) _ h
  cases hr : lookupField fields "response" with
  | none => simp [resolveExternal, h1, optTruthy, hr]
  | some v =>
    cases v with
    | obj rf =>
      have hv : hasAnyKey refAliases (Json.obj rf) = false :=
        hasAnyKey_of_lookupField refAliases "response" fields hf (Json.obj rf) hr
      have h2 : deep_find refAliases2 (Json.obj rf) = none :=
        deep_find_none_of_noKey refAliases refAliases2 refAliases2_sub _ hv
      simp [resolveExternal, h1, optTruthy, hr, h2]
    | null => simp [resolveExternal, h1, optTruthy, hr]
    | bool b => simp [resolveExternal, h1, optTruthy, hr]
    | num n => simp [resolveExternal, h1, optTruthy, hr]
    | str t => simp [resolveExternal, h1, optTruthy, hr]
    | arr xs => simp [resolveExternal, h1, optTruthy, hr]

/-- C6 (amended): (i) reconciliation answers HTTP 200 with the
failure-shaped missing-reference body and leaves the store untouched for
every JSON-object payload in which no reference-bearing alias occurs as
a key at any nesting level, for every string payload not containing the
substring `response`, and for every list payload not containing the
string `response` as an element (a top-level list is never searched for
fields, so no reference resolves from it); (ii) for every payload whose
resolved reference is truthy and binds to a scalar key matching no
stored intent, reconciliation answers HTTP 200 with the failure-shaped
unknown-reference body and leaves the store untouched.  (Number and
boolean payloads lacking a reference, and string or list payloads that
do contain `response`, instead raise a `TypeError` in the `response`
fallback and surface as HTTP 500.) -/
theorem c6_amended :
    (∀ (s : Store) (fields : List (String × Json)),
        hasAnyKey refAliases (Json.obj fields) = false →
        process_callback_payload s (Json.obj fields) =
          Except.ok (⟨false, some "missing external reference"⟩, 200, s,
            [Event.logWarn "Callback missing external ref",
             Event.adminMsg "Callback missing external reference"])) ∧
    (∀ (s : Store) (t : String), strContainsResp t = false →
        process_callback_payload s (Json.str t) =
          Except.ok (⟨false, some "missing external reference"⟩, 200, s,
            [Event.logWarn "Callback missing external ref",
             Event.adminMsg "Callback missing external reference"])) ∧
    (∀ (s : Store) (xs : List Json), containsRespStr xs = false →
        process_callback_payload s (Json.arr xs) =
          Except.ok (⟨false, some "missing external reference"⟩, 200, s,
            [Event.logWarn "Callback missing external ref",
             Event.adminMsg "Callback missing external reference"])) ∧
    (∀ (s : Store) (payload ev : Json) (ref : String),
        resolveExternal payload = Except.ok (some ev) →
        jsonTruthy ev = true →
        bindParam ev = Except.ok ref →
        get_pending s ref = none →
        process_callback_payload s payload =
          Except.ok (⟨false, some "unknown external reference"⟩, 200, s,
            [Event.logWarn "Unknown external reference",
             Event.adminMsg "Unknown external ref"])) := by
  refine ⟨?_, ?_, ?_, ?_⟩
  · intro s fields h
    unfold process_callback_payload
    rw [resolveExternal_obj_none fields h]
    simp [optTruthy]
  · intro s t h
    have hres : resolveExternal (Json.str t) = Except.ok none := by
      simp [resolveExternal, deep_find, optTruthy, h]
    unfold process_callback_payload
    rw [hres]
    simp [optTruthy]
  · intro s xs h
    have hres : resolveExternal (Json.arr xs) = Except.ok none := by
      simp [resolveExternal, deep_find, optTruthy, h]
    unfold process_callback_payload
    rw [hres]
    simp [optTruthy]
  · intro s payload ev ref h1 h2 h3 h4
    unfold process_callback_payload
    rw [h1]
    simp [optTruthy, h2, h3, h4]

/-- C6 counterexample: the payload `5` has no reference-bearing field at
any nesting level, yet reconciliation does not answer 200 with the store
unchanged — it raises a `TypeError` in the `response` fallback
(`"response" in payload` on an integer), which Flask surfaces as
HTTP 500. -/
theorem c6_nonobject_counterexample :
    hasAnyKey refAliases (Json.num 5) = false ∧
    process_callback_payload emptyStore (Json.num 5) = Except.error () :=
  ⟨rfl, rfl⟩

/-- Witness for C6: part (i) at an object payload with a single unrelated
field, at the string payload `hello`, and at a one-element number list;
part (ii) at a payload whose reference `NOPE` matches no intent. -/
theorem c6_amended_witness :
    process_callback_payload emptyStore (Json.obj [("foo", Json.num 1)]) =
      Except.ok (⟨false, some "missing external reference"⟩, 200, emptyStore,
        [Event.logWarn "Callback missing external ref",
         Event.adminMsg "Callback missing external reference"]) ∧
    process_callback_payload emptyStore (Json.str "hello") =
      Except.ok (⟨false, some "missing external reference"⟩, 200, emptyStore,
        [Event.logWarn "Callback missing external ref",
         Event.adminMsg "Callback missing external reference"]) ∧
    process_callback_payload emptyStore (Json.arr [Json.num 1]) =
      Except.ok (⟨false, some "missing external reference"⟩, 200, emptyStore,
        [Event.logWarn "Callback missing external ref",
         Event.adminMsg "Callback missing external reference"]) ∧
    process_callback_payload emptyStore
        (Json.obj [("reference", Json.str "NOPE")]) =
      Except.ok (⟨false, some "unknown external reference"⟩, 200, emptyStore,
        [Event.logWarn "Unknown external reference",
         Event.adminMsg "Unknown external ref"]) :=
  ⟨c6_amended.1 emptyStore [("foo", Json.num 1)] rfl,
   c6_amended.2.1 emptyStore "hello" rfl,
   c6_amended.2.2.1 emptyStore [Json.num 1] rfl,
   c6_amended.2.2.2 emptyStore (Json.obj [("reference", Json.str "NOPE")])
     (Json.str "NOPE") "NOPE" rfl rfl rfl rfl⟩

/-- C7 (amended): for a resolved successful callback on a `purchase`
intent whose catalog item is missing or has no truthy content reference,
reconciliation finalizes the intent to `success`, delivers nothing,
appends no purchase row, leaves balances untouched, and surfaces the
delivery failure to the paying account (a chat message) and in the
failure-shaped HTTP body — but writes no operator-visible log entry and
sends no admin message in this branch. -/
theorem c7_amended (s : Store) (payload ev : Json) (ref : String) (p : Pending)
    (h1 : resolveExternal payload = Except.ok (some ev))
    (h2 : jsonTruthy ev = true)
    (h3 : bindParam ev = Except.ok ref)
    (h4 : get_pending s ref = some p)
    (h5 : p.ptype = "purchase")
    (h6 : determine_success (deep_find codeAliases payload)
        (deep_find statusAliases payload) = true)
    (h7 : deliverable s p.movie_id = false) :
    process_callback_payload s payload =
      Except.ok (⟨false, some "movie missing"⟩, 200,
        set_pending_status s ref "success",
        [Event.userMsg p.chat_id "Payment confirmed but movie missing"]) ∧
    (get_pending (set_pending_status s ref "success") ref).map Pending.status =
      some "success" ∧
    (set_pending_status s ref "success").purchases = s.purchases ∧
    (set_pending_status s ref "success").users = s.users := by
  have hmov : get_movie (set_pending_status s ref "success") p.movie_id =
      get_movie s p.movie_id := rfl
  refine ⟨?_, ?_, rfl, rfl⟩
  · unfold process_callback_payload
    rw [h1]
    unfold deliverable at h7
    cases hm : get_movie s p.movie_id with
    | none => simp [optTruthy, h2, h3, h4, h5, h6, hmov, hm]
    | some m =>
      simp only [hm] at h7
      cases hf : m.file_id with
      | none => simp [optTruthy, h2, h3, h4, h5, h6, hmov, hm, hf]
      | some fid =>
        simp only [hf] at h7
        have hfe : fid = "" := by simpa using h7
        subst hfe
        simp [optTruthy, h2, h3, h4, h5, h6, hmov, hm, hf]
  · rw [get_pending_set_pending_status, h4]
    rfl

/-- C7 counterexample: at the concrete purchase fixture (catalog empty),
the full event list of the run is exactly one user message — there is no
warning-level log write and no admin message in the missing-movie branch
— so the delivery failure is not surfaced to the operator-visible log,
refuting that conjunct of the claim.  The remaining conjuncts hold: the
intent is finalized `success`, nothing is delivered, and no purchase row
is appended. -/
theorem c7_no_log_counterexample :
    process_callback_payload purStore purSuccess =
      Except.ok (⟨false, some "movie missing"⟩, 200, purAfter,
        [Event.userMsg 1 "Payment confirmed but movie missing"]) ∧
    (get_pending purAfter "PUR-1-xv-1").map Pending.status = some "success" ∧
    purAfter.purchases = [] :=
  ⟨rfl, rfl, rfl⟩

/-- Witness for C7 at the concrete purchase fixture. -/
theorem c7_amended_witness :
    process_callback_payload purStore purSuccess =
      Except.ok (⟨false, some "movie missing"⟩, 200,
        set_pending_status purStore "PUR-1-xv-1" "success",
        [Event.userMsg 1 "Payment confirmed but movie missing"]) ∧
    (get_pending (set_pending_status purStore "PUR-1-xv-1" "success")
        "PUR-1-xv-1").map Pending.status = some "success" ∧
    (set_pending_status purStore "PUR-1-xv-1" "success").purchases =
      purStore.purchases ∧
    (set_pending_status purStore "PUR-1-xv-1" "success").users =
      purStore.users :=
  c7_amended purStore purSuccess (Json.str "PUR-1-xv-1") "PUR-1-xv-1"
    ⟨1, some "xv 1", 5, "purchase", "+254700000001", "QUEUED", none, 0⟩
    rfl rfl rfl rfl rfl rfl rfl
